import Mathlib

/-
Verification of follow_me.cpp (src/Linux/RControlStationComm/mavlink_followrcs).

The program is a linear orchestration script around the MAVSDK plugins.  We
embed it shallowly as an environment-driven trace semantics: the environment
fixes every answer the SDK gives (connection result, telemetry streams,
action results), and the embedded main produces the list of observable
events (commands sent, messages printed, sleeps) together with an outcome
(normal return, process exit, or hanging in an unbounded poll loop, which
the embedding bounds with an explicit fuel parameter).  Doubles from the
source are modelled as rationals.
-/

namespace FollowRCS

/-- Connection results of the SDK (only Success is distinguished by the program). -/
inductive ConnectionResult
  | Success
  | SystemNotConnected
  | ConnectionError
  deriving DecidableEq, Repr

/-- Results of Action plugin commands (arm, takeoff, land). -/
inductive ActionResult
  | Success
  | NoSystem
  | ConnectionError
  | Busy
  | CommandDenied
  | Timeout
  deriving DecidableEq, Repr

/-- Results of FollowMe plugin commands (set_config, start, stop). -/
inductive FollowMeResult
  | Success
  | NoSystem
  | ConnectionError
  | Busy
  | CommandDenied
  | Timeout
  | NotActive
  deriving DecidableEq, Repr

/-- Flight modes reported by telemetry. -/
inductive FlightMode
  | Unknown
  | Ready
  | Takeoff
  | Hold
  | Mission
  | ReturnToLaunch
  | Land
  | Offboard
  | FollowMe
  | Manual
  deriving DecidableEq, Repr

/-- Observable events of the program: SDK commands issued, console output,
and one-second sleeps, in program order. -/
inductive Event
  | printUsage
  | addConnection
  | printConnFailed
  | printWaitingDiscover
  | registerDiscover
  | sleepSec
  | printDiscoveredMoreThanOne
  | printWaitingReady
  | printReady
  | cmdArm
  | printArmed
  | cmdTakeoff
  | printInAir
  | cmdSetConfig
  | cmdStartFollowMe
  | subscribeFlightMode
  | requestLocationUpdates
  | cmdSetTargetLocation (lat lon : ℚ)
  | printSkipWarning (lat lon : ℚ)
  | printModeChanged
  | printLastLocation (lat lon : ℚ)
  | cmdStopFollowMe
  | unsubscribeFlightMode
  | cmdLand
  | printWaitingLanded
  | printLanded
  | printError (msg : String)
  deriving DecidableEq, Repr

/-- How the process ends: a return from main, an explicit exit call, or
hanging forever in one of the unbounded polling loops. -/
inductive Outcome
  | ret (code : Nat)
  | exited (code : Nat)
  | hang
  deriving DecidableEq, Repr

/-- MAX_FOLLOW_DISTANCE_METERS from follow_me.cpp line 35. -/
def MAX_FOLLOW_DISTANCE_METERS : ℚ := 5

/-- MAX_SECONDS_TO_FOLLOW from follow_me.cpp line 37. -/
def MAX_SECONDS_TO_FOLLOW : Nat := 60

/-- The location-update callback registered with
RCSLocationProvider::request_location_updates (follow_me.cpp lines 142-156).
The degrees-per-meter constants live in rcs_location_provider.h, which is
not part of the given sources, so they are parameters here; vehicleLat and
vehicleLon are the current telemetry position.  The callback either sends
set_target_location or prints the skip warning. -/
def location_update_callback
    (LATITUDE_DEG_PER_METER LONGITUDE_DEG_PER_METER : ℚ)
    (vehicleLat vehicleLon lat lon : ℚ) : List Event :=
  let lat_diff : ℚ := |vehicleLat - lat|
  let lon_diff : ℚ := |vehicleLon - lon|
  if lat_diff / LATITUDE_DEG_PER_METER < MAX_FOLLOW_DISTANCE_METERS
      ∧ lon_diff / LONGITUDE_DEG_PER_METER < MAX_FOLLOW_DISTANCE_METERS
  then [Event.cmdSetTargetLocation lat lon]
  else [Event.printSkipWarning lat lon]

/-- The flight-mode telemetry callback (follow_me.cpp lines 127-139): on a
mode other than FollowMe it prints a message and calls exit(0); otherwise it
prints the last target location and lets the process keep running (second
component none). -/
def flight_mode_callback (lastLat lastLon : ℚ) (flight_mode : FlightMode) :
    List Event × Option Nat :=
  if flight_mode ≠ FlightMode.FollowMe then
    ([Event.printModeChanged], some 0)
  else
    ([Event.printLastLocation lastLat lastLon], none)

/-- Environment fixing every answer the SDK and the OS give to the program.
Telemetry values polled repeatedly are streams indexed by the poll count. -/
structure Env where
  args : List String
  connection_result : ConnectionResult
  discovered : Nat → Bool
  uuids : List Nat
  health_all_ok : Nat → Bool
  armed : Bool
  in_air : Bool
  relative_altitude_m : Nat → ℚ
  arm_result : ActionResult
  takeoff_result : ActionResult
  set_config_result : FollowMeResult
  start_result : FollowMeResult
  stop_result : FollowMeResult
  land_result : ActionResult
  in_air_landing : Nat → Bool
  is_running : Nat → Bool

/-- A fueled while-poll loop: while cond holds, emit body and move to the
next poll index.  none means the fuel ran out with cond still true, i.e. the
real loop would still be running. -/
def pollWhile (cond : Nat → Bool) (body : List Event) : Nat → Nat → Option (List Event)
  | i, 0 => if cond i then none else some []
  | i, fuel + 1 =>
    if cond i then Option.map (fun evs => body ++ evs) (pollWhile cond body (i + 1) fuel)
    else some []

/-- Sequencing of two program fragments: if the first one already ended the
process, the second never runs. -/
def chain (a b : List Event × Option Outcome) : List Event × Option Outcome :=
  match a.2 with
  | some o => (a.1, some o)
  | none => (a.1 ++ b.1, b.2)

/-- action_error_exit (follow_me.cpp lines 185-191): on a non-Success action
result, print the message and exit(EXIT_FAILURE). -/
def action_error_exit (result : ActionResult) (message : String) :
    List Event × Option Outcome :=
  if result ≠ ActionResult.Success then
    ([Event.printError message], some (Outcome.exited 1))
  else ([], none)

/-- follow_me_error_exit (follow_me.cpp lines 193-199): on a non-Success
follow-me result, print the message and exit(EXIT_FAILURE). -/
def follow_me_error_exit (result : FollowMeResult) (message : String) :
    List Event × Option Outcome :=
  if result ≠ FollowMeResult.Success then
    ([Event.printError message], some (Outcome.exited 1))
  else ([], none)

/-- Lines 59-65: with argc different from 2 print usage and return 1,
otherwise call add_any_connection. -/
def argPhase (env : Env) : List Event × Option Outcome :=
  if env.args.length = 2 then ([Event.addConnection], none)
  else ([Event.printUsage], some (Outcome.ret 1))

/-- Lines 67-71: a failed connection prints the error and returns 1. -/
def connPhase (env : Env) : List Event × Option Outcome :=
  if env.connection_result = ConnectionResult.Success then ([], none)
  else ([Event.printConnFailed], some (Outcome.ret 1))

/-- Lines 73-89: register the discovery callback, sleep until the
discovered_system flag is set, then exit(1) if more than one system was
discovered. -/
def discoveryPhase (env : Env) (fuel : Nat) : List Event × Option Outcome :=
  match pollWhile (fun i => !env.discovered i) [Event.sleepSec] 0 fuel with
  | none => ([Event.printWaitingDiscover, Event.registerDiscover], some Outcome.hang)
  | some evs =>
    let evs := Event.printWaitingDiscover :: Event.registerDiscover :: evs
    if env.uuids.length > 1 then
      (evs ++ [Event.printDiscoveredMoreThanOne], some (Outcome.exited 1))
    else (evs, none)

/-- Lines 94-98: poll telemetry until health_all_ok. -/
def healthPhase (env : Env) (fuel : Nat) : List Event × Option Outcome :=
  match pollWhile (fun i => !env.health_all_ok i)
      [Event.printWaitingReady, Event.sleepSec] 0 fuel with
  | none => ([], some Outcome.hang)
  | some evs => (evs ++ [Event.printReady], none)

/-- Lines 100-105: arm only when not already armed; a failed arm exits. -/
def armPhase (env : Env) : List Event × Option Outcome :=
  if env.armed then ([Event.printArmed], none)
  else
    match action_error_exit env.arm_result "Arming failed" with
    | (evs, some o) => (Event.cmdArm :: evs, some o)
    | (evs, none) => (Event.cmdArm :: evs ++ [Event.printArmed], none)

/-- Lines 107-114: take off only when not already in air; a failed takeoff
exits; then poll until relative altitude reaches 2.4 m. -/
def takeoffPhase (env : Env) (fuel : Nat) : List Event × Option Outcome :=
  if env.in_air then ([Event.printInAir], none)
  else
    match action_error_exit env.takeoff_result "Takeoff failed" with
    | (evs, some o) => (Event.cmdTakeoff :: evs, some o)
    | (evs, none) =>
      match pollWhile (fun i => decide (env.relative_altitude_m i < 24 / 10))
          [Event.sleepSec] 0 fuel with
      | none => (Event.cmdTakeoff :: evs, some Outcome.hang)
      | some waitEvs =>
        (Event.cmdTakeoff :: evs ++ waitEvs ++ [Event.printInAir], none)

/-- Lines 116-156: set the follow-me config (result unchecked by the code),
start follow-me (a failed start exits), then subscribe to flight-mode
updates and request location updates. -/
def followStartPhase (env : Env) : List Event × Option Outcome :=
  match follow_me_error_exit env.start_result "Failed to start FollowMe mode" with
  | (evs, some o) => (Event.cmdSetConfig :: Event.cmdStartFollowMe :: evs, some o)
  | (evs, none) =>
    (Event.cmdSetConfig :: Event.cmdStartFollowMe :: evs
      ++ [Event.subscribeFlightMode, Event.requestLocationUpdates], none)

/-- The body of the follow loop (lines 158-164), fueled structurally: while
the provider is running, sleep one second, increment the counter, and break
once the counter reaches MAX_SECONDS_TO_FOLLOW.  The loop body recurses only
while count + 1 < MAX_SECONDS_TO_FOLLOW, so starting the fuel at
MAX_SECONDS_TO_FOLLOW - count makes the fuel never run out. -/
def followLoopAux (running : Nat → Bool) : Nat → Nat → Nat → List Event
  | 0, _, _ => []
  | fuel + 1, i, count =>
    if running i then
      if count + 1 ≥ MAX_SECONDS_TO_FOLLOW then [Event.sleepSec]
      else Event.sleepSec :: followLoopAux running fuel (i + 1) (count + 1)
    else []

/-- The follow loop of lines 158-164, started at poll index i with the
static counter at count. -/
def followLoop (running : Nat → Bool) (i count : Nat) : List Event :=
  followLoopAux running (MAX_SECONDS_TO_FOLLOW - count) i count

/-- Lines 166-181: stop follow-me (a failed stop exits), unsubscribe the
flight-mode callback, land (a failed land exits), poll until no longer in
air, then return 0. -/
def shutdownPhase (env : Env) (fuel : Nat) : List Event × Option Outcome :=
  match follow_me_error_exit env.stop_result "Failed to stop FollowMe mode" with
  | (evs, some o) => (Event.cmdStopFollowMe :: evs, some o)
  | (evs, none) =>
    match action_error_exit env.land_result "Landing failed" with
    | (evs2, some o) =>
      (Event.cmdStopFollowMe :: evs
        ++ [Event.unsubscribeFlightMode, Event.cmdLand] ++ evs2, some o)
    | (evs2, none) =>
      match pollWhile (fun i => env.in_air_landing i)
          [Event.printWaitingLanded, Event.sleepSec] 0 fuel with
      | none =>
        (Event.cmdStopFollowMe :: evs
          ++ [Event.unsubscribeFlightMode, Event.cmdLand] ++ evs2, some Outcome.hang)
      | some waitEvs =>
        (Event.cmdStopFollowMe :: evs
          ++ [Event.unsubscribeFlightMode, Event.cmdLand] ++ evs2
          ++ waitEvs ++ [Event.printLanded], some (Outcome.ret 0))

/-- main (follow_me.cpp lines 53-182) as the sequence of its phases. -/
def main (env : Env) (fuel : Nat) : List Event × Option Outcome :=
  chain (argPhase env)
    (chain (connPhase env)
      (chain (discoveryPhase env fuel)
        (chain (healthPhase env fuel)
          (chain (armPhase env)
            (chain (takeoffPhase env fuel)
              (chain (followStartPhase env)
                (chain (followLoop env.is_running 0 0, none)
                  (shutdownPhase env fuel))))))))

/-- If a fueled poll loop finished, its condition was false at some index. -/
theorem pollWhile_some_exists_false {cond : Nat → Bool} {body : List Event}
    {i fuel : Nat} {evs : List Event}
    (h : pollWhile cond body i fuel = some evs) : ∃ n, cond n = false := by
  induction fuel generalizing i evs with
  | zero =>
    by_cases hc : cond i
    · simp [pollWhile, hc] at h
    · exact ⟨i, by simpa using hc⟩
  | succ fuel ih =>
    by_cases hc : cond i
    · rw [pollWhile, if_pos hc] at h
      rcases Option.map_eq_some'.mp h with ⟨evs2, h2, _⟩
      exact ih h2
    · exact ⟨i, by simpa using hc⟩

/-- Every event a finished poll loop emitted comes from its body. -/
theorem pollWhile_mem {cond : Nat → Bool} {body : List Event} {i fuel : Nat}
    {evs : List Event} (h : pollWhile cond body i fuel = some evs) :
    ∀ x ∈ evs, x ∈ body := by
  induction fuel generalizing i evs with
  | zero =>
    by_cases hc : cond i
    · simp [pollWhile, hc] at h
    · rw [pollWhile, if_neg hc] at h
      cases h
      intro x hx
      simp at hx
  | succ fuel ih =>
    by_cases hc : cond i
    · rw [pollWhile, if_pos hc] at h
      rcases Option.map_eq_some'.mp h with ⟨evs2, h2, hEq⟩
      subst hEq
      intro x hx
      rcases List.mem_append.mp hx with hb | he
      · exact hb
      · exact ih h2 x he
    · rw [pollWhile, if_neg hc] at h
      cases h
      intro x hx
      simp at hx

/-- A poll loop whose condition never becomes false runs out of any fuel. -/
theorem pollWhile_always_true {cond : Nat → Bool} {body : List Event}
    (h : ∀ n, cond n = true) : ∀ fuel i, pollWhile cond body i fuel = none := by
  intro fuel
  induction fuel with
  | zero => intro i; simp [pollWhile, h i]
  | succ fuel ih => intro i; simp [pollWhile, h i, ih]

/-- An already-ended fragment swallows whatever follows it. -/
theorem chain_stop {a : List Event × Option Outcome} {o : Outcome}
    (h : a.2 = some o) (b : List Event × Option Outcome) :
    chain a b = (a.1, some o) := by
  simp [chain, h]

/-- A fragment that did not end the process is followed by the next one. -/
theorem chain_go {a : List Event × Option Outcome} (h : a.2 = none)
    (b : List Event × Option Outcome) : chain a b = (a.1 ++ b.1, b.2) := by
  simp [chain, h]

/-- Membership in a chained trace comes from one of the two fragments. -/
theorem chain_not_mem {x : Event} {a b : List Event × Option Outcome}
    (ha : x ∉ a.1) (hb : x ∉ b.1) : x ∉ (chain a b).1 := by
  cases ho : a.2 with
  | none => rw [chain_go ho]; simp [ha, hb]
  | some o => rw [chain_stop ho]; exact ha

/-- The follow loop emits only one-second sleeps, at most one per unit of
fuel. -/
theorem followLoopAux_replicate (running : Nat → Bool) :
    ∀ fuel i count, ∃ n, n ≤ fuel ∧
      followLoopAux running fuel i count = List.replicate n Event.sleepSec := by
  intro fuel
  induction fuel with
  | zero => intro i count; exact ⟨0, le_rfl, rfl⟩
  | succ fuel ih =>
    intro i count
    by_cases hr : running i
    · by_cases hc : count + 1 ≥ MAX_SECONDS_TO_FOLLOW
      · exact ⟨1, by omega, by simp [followLoopAux, hr, hc]⟩
      · obtain ⟨n, hn, heq⟩ := ih (i + 1) (count + 1)
        exact ⟨n + 1, by omega,
          by simp [followLoopAux, hr, hc, heq, List.replicate_succ]⟩
    · exact ⟨0, by omega, by simp [followLoopAux, hr]⟩

/-- If the provider is not running at the loop head, the loop body never
runs. -/
theorem followLoopAux_not_running {running : Nat → Bool} {i count : Nat}
    (h : running i = false) :
    ∀ fuel, followLoopAux running fuel i count = [] := by
  intro fuel
  cases fuel with
  | zero => rfl
  | succ fuel => simp [followLoopAux, h]

/-- A nominal environment: correct arguments, successful connection, one
system discovered at once, telemetry immediately healthy, on the ground,
every command succeeding, landing confirmed at the first poll, provider
already stopped. -/
def envGood : Env where
  args := ["follow_me", "udp://:14540"]
  connection_result := ConnectionResult.Success
  discovered := fun _ => true
  uuids := [4242]
  health_all_ok := fun _ => true
  armed := false
  in_air := false
  relative_altitude_m := fun _ => 3
  arm_result := ActionResult.Success
  takeoff_result := ActionResult.Success
  set_config_result := FollowMeResult.Success
  start_result := FollowMeResult.Success
  stop_result := FollowMeResult.Success
  land_result := ActionResult.Success
  in_air_landing := fun _ => false
  is_running := fun _ => false

/-- The nominal environment launched with no command-line argument. -/
def envBadArgs : Env := { envGood with args := [] }

/-- The nominal environment with a failing follow-me stop command. -/
def envStopFail : Env := { envGood with stop_result := FollowMeResult.Timeout }

/-- Claim C1: a location fix is forwarded to the follow-me plugin via
set_target_location exactly when both the absolute latitude difference from
the current vehicle position divided by LATITUDE_DEG_PER_METER and the
absolute longitude difference divided by LONGITUDE_DEG_PER_METER are below
5.0 meters; otherwise the fix is skipped with a warning.  The two
degrees-per-meter constants live in a header outside the given sources, so
they are universally quantified positive parameters. -/
theorem c1_follow_target_relay
    (LATITUDE_DEG_PER_METER LONGITUDE_DEG_PER_METER
      vehicleLat vehicleLon lat lon : ℚ)
    (hlatpos : 0 < LATITUDE_DEG_PER_METER) (hlonpos : 0 < LONGITUDE_DEG_PER_METER) :
    (location_update_callback LATITUDE_DEG_PER_METER LONGITUDE_DEG_PER_METER
        vehicleLat vehicleLon lat lon = [Event.cmdSetTargetLocation lat lon]
      ↔ (|vehicleLat - lat| / LATITUDE_DEG_PER_METER < MAX_FOLLOW_DISTANCE_METERS
          ∧ |vehicleLon - lon| / LONGITUDE_DEG_PER_METER < MAX_FOLLOW_DISTANCE_METERS))
    ∧ (location_update_callback LATITUDE_DEG_PER_METER LONGITUDE_DEG_PER_METER
        vehicleLat vehicleLon lat lon = [Event.printSkipWarning lat lon]
      ↔ ¬ (|vehicleLat - lat| / LATITUDE_DEG_PER_METER < MAX_FOLLOW_DISTANCE_METERS
          ∧ |vehicleLon - lon| / LONGITUDE_DEG_PER_METER < MAX_FOLLOW_DISTANCE_METERS)) := by
  unfold location_update_callback
  by_cases h : |vehicleLat - lat| / LATITUDE_DEG_PER_METER < MAX_FOLLOW_DISTANCE_METERS
      ∧ |vehicleLon - lon| / LONGITUDE_DEG_PER_METER < MAX_FOLLOW_DISTANCE_METERS
  · simp [h]
  · simp [h]

/-- Witness for C1 at concrete positive constants and a zero-distance fix. -/
theorem c1_follow_target_relay_witness :
    (0 : ℚ) < 9 / 1000000 ∧ (0 : ℚ) < 9 / 1000000 ∧
    (location_update_callback (9 / 1000000) (9 / 1000000) 1 2 1 2
        = [Event.cmdSetTargetLocation 1 2]
      ↔ (|(1 : ℚ) - 1| / (9 / 1000000) < MAX_FOLLOW_DISTANCE_METERS
          ∧ |(2 : ℚ) - 2| / (9 / 1000000) < MAX_FOLLOW_DISTANCE_METERS)) :=
  ⟨by norm_num, by norm_num,
    (c1_follow_target_relay (9 / 1000000) (9 / 1000000) 1 2 1 2
      (by norm_num) (by norm_num)).1⟩

/-- Claim C3: whenever the flight-mode callback observes a mode other than
FollowMe it exits the process at once; the process continues past the
callback exactly when the observed mode is FollowMe. -/
theorem c3_mode_watchdog (lastLat lastLon : ℚ) (flight_mode : FlightMode) :
    (flight_mode ≠ FlightMode.FollowMe →
      (flight_mode_callback lastLat lastLon flight_mode).2 = some 0)
    ∧ ((flight_mode_callback lastLat lastLon flight_mode).2 = none
      ↔ flight_mode = FlightMode.FollowMe) := by
  unfold flight_mode_callback
  by_cases h : flight_mode = FlightMode.FollowMe <;> simp [h]

/-- Witness for C3 at the Hold flight mode. -/
theorem c3_mode_watchdog_witness :
    FlightMode.Hold ≠ FlightMode.FollowMe ∧
    (flight_mode_callback 0 0 FlightMode.Hold).2 = some 0 :=
  ⟨by decide, (c3_mode_watchdog 0 0 FlightMode.Hold).1 (by decide)⟩

/-- Claim C10: on a mode change away from FollowMe the watchdog callback
exits with status 0 (not a failure status), and its own trace contains
neither the follow-me stop command nor the land command, so the shutdown
sequence is skipped. -/
theorem c10_watchdog_exits_zero (lastLat lastLon : ℚ) (flight_mode : FlightMode)
    (h : flight_mode ≠ FlightMode.FollowMe) :
    flight_mode_callback lastLat lastLon flight_mode
        = ([Event.printModeChanged], some 0)
    ∧ Event.cmdStopFollowMe ∉ (flight_mode_callback lastLat lastLon flight_mode).1
    ∧ Event.cmdLand ∉ (flight_mode_callback lastLat lastLon flight_mode).1 := by
  unfold flight_mode_callback
  simp [h]

/-- Witness for C10 at the Hold flight mode. -/
theorem c10_watchdog_exits_zero_witness :
    FlightMode.Hold ≠ FlightMode.FollowMe ∧
    flight_mode_callback 0 0 FlightMode.Hold = ([Event.printModeChanged], some 0) :=
  ⟨by decide, (c10_watchdog_exits_zero 0 0 FlightMode.Hold (by decide)).1⟩

/-- Claim C4: the follow relay loop performs at most MAX_SECONDS_TO_FOLLOW
iterations, each consisting of exactly one one-second sleep (so its trace
is a replicate of sleeps of length at most 60), it runs exactly 60
iterations when the provider keeps running, and it stops at once when the
provider is not running. -/
theorem c4_follow_loop_bounded :
    (∀ running : Nat → Bool, ∃ n, n ≤ MAX_SECONDS_TO_FOLLOW ∧
        followLoop running 0 0 = List.replicate n Event.sleepSec)
    ∧ (followLoop (fun _ => true) 0 0).length = MAX_SECONDS_TO_FOLLOW
    ∧ (∀ running : Nat → Bool, running 0 = false → followLoop running 0 0 = []) := by
  refine ⟨?_, ?_, ?_⟩
  · intro running
    obtain ⟨n, hn, heq⟩ :=
      followLoopAux_replicate running (MAX_SECONDS_TO_FOLLOW - 0) 0 0
    exact ⟨n, by omega, heq⟩
  · decide
  · intro running h
    exact followLoopAux_not_running h _

/-- Witness for C4 with the provider stopped from the start. -/
theorem c4_follow_loop_bounded_witness :
    (fun _ => false : Nat → Bool) 0 = false ∧
    followLoop (fun _ => false) 0 0 = [] :=
  ⟨rfl, c4_follow_loop_bounded.2.2 (fun _ => false) rfl⟩

/-- Claim C2: the bootstrap blocks while no system is discovered, and once
at least one system is known it proceeds exactly when one system is present,
ending the process with exit(1) when more than one system was discovered. -/
theorem c2_bootstrap_single_system (env : Env) (fuel : Nat)
    (hne : env.uuids ≠ []) :
    ((∀ i, env.discovered i = false) →
      (discoveryPhase env fuel).2 = some Outcome.hang)
    ∧ ((discoveryPhase env fuel).2 ≠ some Outcome.hang →
        (((discoveryPhase env fuel).2 = none ↔ env.uuids.length = 1)
          ∧ (1 < env.uuids.length →
              (discoveryPhase env fuel).2 = some (Outcome.exited 1)))) := by
  constructor
  · intro hnever
    have hall : ∀ n, (fun i => !env.discovered i) n = true := by
      intro n; simp [hnever n]
    simp [discoveryPhase, pollWhile_always_true hall fuel 0]
  · intro hnh
    rcases hp : pollWhile (fun i => !env.discovered i) [Event.sleepSec] 0 fuel
        with _ | evs
    · exact absurd (by simp [discoveryPhase, hp]) hnh
    · by_cases hgt : env.uuids.length > 1
      · constructor
        · simp [discoveryPhase, hp, hgt]
          omega
        · intro _
          simp [discoveryPhase, hp, hgt]
      · have h1 : env.uuids.length = 1 := by
          have h0 : 0 < env.uuids.length := List.length_pos.mpr hne
          omega
        constructor
        · simp [discoveryPhase, hp, hgt, h1]
        · intro hx
          exact absurd hx hgt

/-- Witness for C2 in the nominal environment with its single system. -/
theorem c2_bootstrap_single_system_witness :
    envGood.uuids ≠ [] ∧
    ((discoveryPhase envGood 1).2 = none ↔ envGood.uuids.length = 1) :=
  ⟨by decide,
    ((c2_bootstrap_single_system envGood 1 (by decide)).2 (by decide)).1⟩

/-- Claim C5: when the stop and land commands succeed and the landing poll
finishes, the shutdown performs the follow-me stop, then (after dropping
the flight-mode subscription) the land command, then the in-air polls, and
returns 0. -/
theorem c5_shutdown_sequence (env : Env) (fuel : Nat) (waitEvs : List Event)
    (hstop : env.stop_result = FollowMeResult.Success)
    (hland : env.land_result = ActionResult.Success)
    (hwait : pollWhile (fun i => env.in_air_landing i)
        [Event.printWaitingLanded, Event.sleepSec] 0 fuel = some waitEvs) :
    shutdownPhase env fuel =
      (Event.cmdStopFollowMe :: Event.unsubscribeFlightMode :: Event.cmdLand ::
        (waitEvs ++ [Event.printLanded]), some (Outcome.ret 0)) := by
  unfold shutdownPhase follow_me_error_exit action_error_exit
  simp [hstop, hland, hwait]

/-- Witness for C5 in the nominal environment, landed at the first poll. -/
theorem c5_shutdown_sequence_witness :
    envGood.stop_result = FollowMeResult.Success ∧
    envGood.land_result = ActionResult.Success ∧
    shutdownPhase envGood 1 =
      (Event.cmdStopFollowMe :: Event.unsubscribeFlightMode :: Event.cmdLand ::
        ([] ++ [Event.printLanded]), some (Outcome.ret 0)) :=
  ⟨rfl, rfl, c5_shutdown_sequence envGood 1 [] rfl rfl rfl⟩

/-- Claim C6: the preflight proceeds past the health loop only when
health_all_ok became true (and hangs when it never does), issues the arm
command exactly when the vehicle is not already armed, issues the takeoff
command exactly when the vehicle is not already in air, and, when it
proceeds, either the vehicle was already in air or some polled relative
altitude reached at least 2.4 m. -/
theorem c6_preflight (env : Env) (fuel : Nat) :
    ((healthPhase env fuel).2 = none → ∃ n, env.health_all_ok n = true)
    ∧ ((∀ i, env.health_all_ok i = false) →
        (healthPhase env fuel).2 = some Outcome.hang)
    ∧ (Event.cmdArm ∈ (armPhase env).1 ↔ env.armed = false)
    ∧ (Event.cmdTakeoff ∈ (takeoffPhase env fuel).1 ↔ env.in_air = false)
    ∧ ((takeoffPhase env fuel).2 = none →
        env.in_air = true ∨ ∃ n, ¬ (env.relative_altitude_m n < 24 / 10)) := by
  refine ⟨?_, ?_, ?_, ?_, ?_⟩
  · intro h
    rcases hp : pollWhile (fun i => !env.health_all_ok i)
        [Event.printWaitingReady, Event.sleepSec] 0 fuel with _ | evs
    · simp [healthPhase, hp] at h
    · obtain ⟨n, hn⟩ := pollWhile_some_exists_false hp
      exact ⟨n, by simpa using hn⟩
  · intro hall
    have hcond : ∀ n, (fun i => !env.health_all_ok i) n = true := by
      intro n; simp [hall n]
    simp [healthPhase, pollWhile_always_true hcond fuel 0]
  · cases ha : env.armed with
    | true => simp [armPhase, ha]
    | false =>
      by_cases hr : env.arm_result = ActionResult.Success <;>
        simp [armPhase, ha, action_error_exit, hr]
  · cases hi : env.in_air with
    | true => simp [takeoffPhase, hi]
    | false =>
      by_cases hr : env.takeoff_result = ActionResult.Success
      · rcases hp : pollWhile (fun i => decide (env.relative_altitude_m i < 24 / 10))
            [Event.sleepSec] 0 fuel with _ | waitEvs <;>
          simp [takeoffPhase, hi, action_error_exit, hr, hp]
      · simp [takeoffPhase, hi, action_error_exit, hr]
  · intro h
    cases hi : env.in_air with
    | true => exact Or.inl rfl
    | false =>
      right
      by_cases hr : env.takeoff_result = ActionResult.Success
      · rcases hp : pollWhile (fun i => decide (env.relative_altitude_m i < 24 / 10))
            [Event.sleepSec] 0 fuel with _ | waitEvs
        · rw [takeoffPhase] at h
          simp [hi, action_error_exit, hr, hp] at h
        · obtain ⟨n, hn⟩ := pollWhile_some_exists_false hp
          exact ⟨n, by simpa using hn⟩
      · rw [takeoffPhase] at h
        simp [hi, action_error_exit, hr] at h

/-- Witness for C6 in the nominal environment: the preflight proceeds and
telemetry was indeed healthy at some poll. -/
theorem c6_preflight_witness :
    (healthPhase envGood 1).2 = none ∧ ∃ n, envGood.health_all_ok n = true :=
  ⟨rfl, (c6_preflight envGood 1).1 rfl⟩

/-- The argument phase never sends the land command. -/
theorem argPhase_no_land (env : Env) : Event.cmdLand ∉ (argPhase env).1 := by
  by_cases h : env.args.length = 2 <;> simp [argPhase, h]

/-- The connection phase never sends the land command. -/
theorem connPhase_no_land (env : Env) : Event.cmdLand ∉ (connPhase env).1 := by
  by_cases h : env.connection_result = ConnectionResult.Success <;>
    simp [connPhase, h]

/-- The discovery phase never sends the land command. -/
theorem discoveryPhase_no_land (env : Env) (fuel : Nat) :
    Event.cmdLand ∉ (discoveryPhase env fuel).1 := by
  rcases hp : pollWhile (fun i => !env.discovered i) [Event.sleepSec] 0 fuel
      with _ | evs
  · simp [discoveryPhase, hp]
  · by_cases hgt : env.uuids.length > 1 <;>
    · simp [discoveryPhase, hp, hgt]
      intro hx
      have hb := pollWhile_mem hp Event.cmdLand hx
      simp at hb

/-- The health phase never sends the land command. -/
theorem healthPhase_no_land (env : Env) (fuel : Nat) :
    Event.cmdLand ∉ (healthPhase env fuel).1 := by
  rcases hp : pollWhile (fun i => !env.health_all_ok i)
      [Event.printWaitingReady, Event.sleepSec] 0 fuel with _ | evs
  · simp [healthPhase, hp]
  · simp [healthPhase, hp]
    intro hx
    have hb := pollWhile_mem hp Event.cmdLand hx
    simp at hb

/-- The arm phase never sends the land command. -/
theorem armPhase_no_land (env : Env) : Event.cmdLand ∉ (armPhase env).1 := by
  cases ha : env.armed with
  | true => simp [armPhase, ha]
  | false =>
    by_cases hr : env.arm_result = ActionResult.Success <;>
      simp [armPhase, ha, action_error_exit, hr]

/-- The takeoff phase never sends the land command. -/
theorem takeoffPhase_no_land (env : Env) (fuel : Nat) :
    Event.cmdLand ∉ (takeoffPhase env fuel).1 := by
  cases hi : env.in_air with
  | true => simp [takeoffPhase, hi]
  | false =>
    by_cases hr : env.takeoff_result = ActionResult.Success
    · rcases hp : pollWhile (fun i => decide (env.relative_altitude_m i < 24 / 10))
          [Event.sleepSec] 0 fuel with _ | waitEvs
      · simp [takeoffPhase, hi, action_error_exit, hr, hp]
      · simp [takeoffPhase, hi, action_error_exit, hr, hp]
        intro hx
        have hb := pollWhile_mem hp Event.cmdLand hx
        simp at hb
    · simp [takeoffPhase, hi, action_error_exit, hr]

/-- The follow-me start phase never sends the land command. -/
theorem followStartPhase_no_land (env : Env) :
    Event.cmdLand ∉ (followStartPhase env).1 := by
  by_cases hr : env.start_result = FollowMeResult.Success <;>
    simp [followStartPhase, follow_me_error_exit, hr]

/-- The follow loop never sends the land command. -/
theorem followLoop_no_land (running : Nat → Bool) (i count : Nat) :
    Event.cmdLand ∉ followLoop running i count := by
  obtain ⟨n, _, heq⟩ :=
    followLoopAux_replicate running (MAX_SECONDS_TO_FOLLOW - count) i count
  rw [followLoop, heq]
  simp [List.mem_replicate]

/-- Claim C8: with a number of arguments other than two the program prints
the usage text and returns 1 without opening a connection; with two
arguments but a failed add_any_connection it prints the error and returns 1
before any discovery or flight command. -/
theorem c8_argument_and_connection_guard (env : Env) (fuel : Nat) :
    (env.args.length ≠ 2 →
      main env fuel = ([Event.printUsage], some (Outcome.ret 1)))
    ∧ (env.args.length = 2 →
      env.connection_result ≠ ConnectionResult.Success →
      main env fuel = ([Event.addConnection, Event.printConnFailed],
        some (Outcome.ret 1))) := by
  constructor
  · intro h
    simp [main, chain, argPhase, h]
  · intro h2 hc
    simp [main, chain, argPhase, connPhase, h2, hc]

/-- Witness for C8 with an empty argument vector. -/
theorem c8_argument_and_connection_guard_witness :
    envBadArgs.args.length ≠ 2 ∧
    main envBadArgs 1 = ([Event.printUsage], some (Outcome.ret 1)) :=
  ⟨by decide, (c8_argument_and_connection_guard envBadArgs 1).1 (by decide)⟩

/-- Claim C9: every non-Success arm, takeoff or land result makes
action_error_exit print the error and exit(1), every non-Success follow-me
start or stop result does the same through follow_me_error_exit, a fragment
that exited swallows everything after it (no further commands), and in
particular a failed follow-me stop ends the shutdown right there, so the
land command never appears in the whole program trace. -/
theorem c9_error_exits (env : Env) (fuel : Nat) :
    (∀ r m, r ≠ ActionResult.Success →
      action_error_exit r m = ([Event.printError m], some (Outcome.exited 1)))
    ∧ (∀ r m, r ≠ FollowMeResult.Success →
      follow_me_error_exit r m = ([Event.printError m], some (Outcome.exited 1)))
    ∧ (∀ (evs : List Event) (o : Outcome) (b : List Event × Option Outcome),
      chain (evs, some o) b = (evs, some o))
    ∧ (env.stop_result ≠ FollowMeResult.Success →
      shutdownPhase env fuel =
        ([Event.cmdStopFollowMe, Event.printError "Failed to stop FollowMe mode"],
          some (Outcome.exited 1)))
    ∧ (env.stop_result ≠ FollowMeResult.Success →
      Event.cmdLand ∉ (main env fuel).1) := by
  refine ⟨?_, ?_, ?_, ?_, ?_⟩
  · intro r m h
    simp [action_error_exit, h]
  · intro r m h
    simp [follow_me_error_exit, h]
  · intro evs o b
    simp [chain]
  · intro h
    simp [shutdownPhase, follow_me_error_exit, h]
  · intro h
    rw [main]
    apply chain_not_mem (argPhase_no_land env)
    apply chain_not_mem (connPhase_no_land env)
    apply chain_not_mem (discoveryPhase_no_land env fuel)
    apply chain_not_mem (healthPhase_no_land env fuel)
    apply chain_not_mem (armPhase_no_land env)
    apply chain_not_mem (takeoffPhase_no_land env fuel)
    apply chain_not_mem (followStartPhase_no_land env)
    apply chain_not_mem (followLoop_no_land env.is_running 0 0)
    simp [shutdownPhase, follow_me_error_exit, h]

/-- Witness for C9: with a failing stop command the land command is absent
from the whole program trace. -/
theorem c9_error_exits_witness :
    envStopFail.stop_result ≠ FollowMeResult.Success ∧
    Event.cmdLand ∉ (main envStopFail 1).1 :=
  ⟨by decide, (c9_error_exits envStopFail 1).2.2.2.2 (by decide)⟩

end FollowRCS
